import Mathlib

/-!
Verification of the TestFlight availability checker bot (src/bot.py).

The development shallowly embeds the core of the program:
* the availability checker (`check`), the body of the per-target loop in
  `check_links_and_notify` (lines 60-77 of the source);
* the per-cycle aggregation of status lines (`poll_targets`) and the two
  rendered messages (`full_update_message`, `slot_notification`);
* the subscriber store (the two Python sets `subscribed_users` and
  `test_mode_users`) and the dispatch loop over a snapshot of the
  subscribed set (`dispatch_step`, `dispatch_pass`, `check_cycle`);
* the command handlers `notify`, `test_mode`, `stop` and `help`.

External primitives are parameters: the page fetch is a function
`String → FetchResult` (a successful `requests.get` + `raise_for_status`
returns the body, any `RequestException` is the `err` case), and delivery
is described by a `DispatchEnv` giving, per user id, whether
`bot.fetch_user` produced a user and how `user.send` ended
(success, `discord.errors.Forbidden`, or any other exception).
-/

namespace TFC

/-- State of one target check: marker found, marker absent, or fetch failed. -/
inductive CheckState where
| FULL
| AVAILABLE
| UNREACHABLE
deriving DecidableEq

/-- One monitored TestFlight link: display name and URL. -/
structure Target where
  name : String
  url : String
deriving DecidableEq

/-- Result of checking one target: the target, its state and the rendered status line. -/
structure CheckResult where
  target : Target
  state : CheckState
  detail : String
deriving DecidableEq

/-- Outcome of fetching a page: the body on success, or the stringified
`RequestException` when the request fails or the response status is non-success. -/
inductive FetchResult where
| ok (body : String)
| err (cause : String)
deriving DecidableEq

/-- Poll interval in seconds (`CHECK_INTERVAL = 60` in the source). -/
def CHECK_INTERVAL : Nat := 60

/-- The marker whose presence means the beta is full (`FULL_TEXT` in the source). -/
def FULL_TEXT : String := "This beta is full."

/-- The fixed slot-available marker embedded in the AVAILABLE status line. -/
def SLOT_MARKER : String := ":tada: THERE IS A SLOT!"

/-- The monitored links (`TESTFLIGHT_LINKS` in the source), in insertion order. -/
def TESTFLIGHT_LINKS : List Target :=
  [⟨"Group A", "https://testflight.apple.com/join/rACTLjPL"⟩,
   ⟨"Group B", "https://testflight.apple.com/join/ocj3yptn"⟩,
   ⟨"Group C", "https://testflight.apple.com/join/CuMxZE2M"⟩,
   ⟨"Group D", "https://testflight.apple.com/join/T6qKfV6f"⟩,
   ⟨"Group E", "https://testflight.apple.com/join/sMm1MCYc"⟩]

/-- Whether `pat` occurs at the very start of a character list. -/
def matchesAt : List Char → List Char → Bool
| [], _ => true
| _ :: _, [] => false
| a :: as, b :: bs => a == b && matchesAt as bs

/-- Whether `pat` occurs anywhere in a character list (Python's `in` on strings). -/
def occursIn (pat : List Char) : List Char → Bool
| [] => pat.isEmpty
| b :: bs => matchesAt pat (b :: bs) || occursIn pat bs

/-- Substring test on strings, modelling Python's `pat in s`. -/
def strOccurs (pat s : String) : Bool := occursIn pat.toList s.toList

/-- The User-Agent header value set on every fetch. -/
def the_user_agent : String :=
  "Mozilla/5.0 (Windows NT 10.0; Win64; x64) AppleWebKit/537.36 (KHTML, like Gecko) Chrome/58.0.3029.110 Safari/537.3"

/-- Shape of the HTTP request the poll loop issues: URL, headers, and the
timeout argument of `requests.get` (`none` means wait indefinitely). -/
structure HttpRequest where
  url : String
  user_agent : String
  timeout : Option Nat
deriving DecidableEq

/-- The request built at lines 62-65 of the source: `requests.get(url, headers=headers)`
with a User-Agent header and no `timeout` argument. -/
def poll_request (url : String) : HttpRequest :=
  ⟨url, the_user_agent, Option.none⟩

/-- The availability checker: body of the per-target loop (source lines 60-77).
On fetch success, the marker decides FULL vs AVAILABLE and the code formats the
status line; on `RequestException` the error line is produced. -/
def check (marker : String) (fetch : String → FetchResult) (t : Target) : CheckResult :=
  match fetch t.url with
  | FetchResult.ok body =>
    if strOccurs marker body then
      ⟨t, CheckState.FULL, "**" ++ t.name ++ "**: Full."⟩
    else
      ⟨t, CheckState.AVAILABLE, "**" ++ t.name ++ "**: :tada: THERE IS A SLOT! <" ++ t.url ++ ">"⟩
  | FetchResult.err cause =>
    ⟨t, CheckState.UNREACHABLE, "Could not check status for **" ++ t.name ++ "**. Error: " ++ cause⟩

/-- All check results for a registry, in registry order. -/
def run_checks (marker : String) (fetch : String → FetchResult) : List Target → List CheckResult
| [] => []
| t :: rest => check marker fetch t :: run_checks marker fetch rest

/-- The per-cycle loop over the registry, building `all_status_messages`
(first component) and `slot_available_links` (second component) exactly as
the source does: every target appends its detail line to the first list,
and AVAILABLE targets additionally append it to the second. -/
def poll_targets (marker : String) (fetch : String → FetchResult) : List Target → List String × List String
| [] => ([], [])
| t :: rest =>
  let r := check marker fetch t
  let p := poll_targets marker fetch rest
  (r.detail :: p.1, if r.state == CheckState.AVAILABLE then r.detail :: p.2 else p.2)

/-- The digest sent to test-mode users: fixed header plus every status line. -/
def full_update_message (all_status_messages : List String) : String :=
  "--- Test Mode Status Update ---\n" ++ String.intercalate "\n" all_status_messages

/-- The notification sent to normal users: slot header plus the AVAILABLE lines. -/
def slot_notification (slot_available_links : List String) : String :=
  "--- :tada: Slot Available! ---\n" ++ String.intercalate "\n" slot_available_links

/-- Source line 81: `slot_found = len(slot_available_links) > 0`. -/
def slot_found (slot_available_links : List String) : Bool :=
  decide (0 < slot_available_links.length)

/-- The subscriber store: the two Python sets of user ids. -/
structure Store where
  subscribed_users : Finset Nat
  test_mode_users : Finset Nat
deriving DecidableEq

/-- How `user.send` ends for a given user: success, `discord.errors.Forbidden`
(recipient permanently unreachable), or any other exception. -/
inductive SendOutcome where
| success
| forbidden
| otherError
deriving DecidableEq

/-- Delivery environment for one dispatch pass: whether `bot.fetch_user`
yields a user, and how sending the DM to that user ends. -/
structure DispatchEnv where
  fetch_user : Nat → Bool
  send : Nat → SendOutcome

/-- Processing of one user id inside the dispatch loop (source lines 84-102):
skip when `fetch_user` yields nothing; test-mode users get the full digest,
other users get the slot notification only when a slot was found; a
`Forbidden` error discards the id from both sets, any other exception is
logged and changes nothing.  The returned list records the messages the
user actually received. -/
def dispatch_step (env : DispatchEnv) (alls slots : List String) (st : Store) (u : Nat) :
    Store × List (Nat × String) :=
  if env.fetch_user u then
    if u ∈ st.test_mode_users then
      match env.send u with
      | SendOutcome.success => (st, [(u, full_update_message alls)])
      | SendOutcome.forbidden => (⟨st.subscribed_users.erase u, st.test_mode_users.erase u⟩, [])
      | SendOutcome.otherError => (st, [])
    else if slot_found slots then
      match env.send u with
      | SendOutcome.success => (st, [(u, slot_notification slots)])
      | SendOutcome.forbidden => (⟨st.subscribed_users.erase u, st.test_mode_users.erase u⟩, [])
      | SendOutcome.otherError => (st, [])
    else (st, [])
  else (st, [])

/-- The dispatch loop over a snapshot (`list(subscribed_users)`) of the
subscribed set, threading the store and concatenating the delivery log. -/
def dispatch_pass (env : DispatchEnv) (alls slots : List String) :
    Store → List Nat → Store × List (Nat × String)
| st, [] => (st, [])
| st, u :: rest =>
  let p := dispatch_step env alls slots st u
  let q := dispatch_pass env alls slots p.1 rest
  (q.1, p.2 ++ q.2)

/-- One iteration of `check_links_and_notify`: skipped when nobody is
subscribed, otherwise check every target and dispatch over the snapshot. -/
def check_cycle (marker : String) (fetch : String → FetchResult) (registry : List Target)
    (env : DispatchEnv) (snapshot : List Nat) (st : Store) : Store × List (Nat × String) :=
  if st.subscribed_users = ∅ then (st, [])
  else
    dispatch_pass env (poll_targets marker fetch registry).1
      (poll_targets marker fetch registry).2 st snapshot

/-- The `testflight>notify` command (source lines 137-154): rejected with a
guidance reply outside DMs; otherwise an idempotent add with a reply. -/
def notify (is_dm : Bool) (user_id : Nat) (st : Store) : Store × List String :=
  if !is_dm then
    (st, ["This command only works in my DMs! Please message me directly."])
  else if user_id ∈ st.subscribed_users then
    (st, ["You are already subscribed!"])
  else
    (⟨insert user_id st.subscribed_users, st.test_mode_users⟩,
     ["You have successfully subscribed! **By default, I will only message you when a slot opens.**\n\nTo get a status message every minute (even if full), type `testflight>test-mode`.\nTo unsubscribe, type `testflight>stop`."])

/-- The `testflight>test-mode` command (source lines 156-171): silently
ignored outside DMs; requires prior subscription; otherwise flips
membership of the issuer in the test-mode set. -/
def test_mode (is_dm : Bool) (user_id : Nat) (st : Store) : Store × List String :=
  if !is_dm then (st, [])
  else if user_id ∉ st.subscribed_users then
    (st, ["You need to subscribe first! Type `testflight>notify` to begin."])
  else if user_id ∈ st.test_mode_users then
    (⟨st.subscribed_users, st.test_mode_users.erase user_id⟩,
     ["Test mode **disabled**. You will now only receive notifications when a slot is available."])
  else
    (⟨st.subscribed_users, insert user_id st.test_mode_users⟩,
     ["Test mode **enabled**. You will now receive a status update every minute."])

/-- The `testflight>stop` command (source lines 173-185): silently ignored
outside DMs; removes the issuer from both sets when subscribed. -/
def stop (is_dm : Bool) (user_id : Nat) (st : Store) : Store × List String :=
  if !is_dm then (st, [])
  else if user_id ∈ st.subscribed_users then
    (⟨st.subscribed_users.erase user_id, st.test_mode_users.erase user_id⟩,
     ["You have been unsubscribed. You will no longer receive updates."])
  else
    (st, ["You are not currently subscribed."])

/-- The body of the `testflight>help` reply. -/
def help_text : String :=
  "**Hello! I am the TestFlight Notifier Bot.** Here are my commands:\n\n`testflight>notify`\nSubscribes you to notifications. By default, I will only message you when a slot opens.\n\n`testflight>stop`\nUnsubscribes you from all notifications.\n\n`testflight>test-mode`\nToggles test mode. When enabled, you will receive a status update every minute, regardless of whether slots are full or open.\n\n`testflight>help`\nShows this help message."

/-- The `testflight>help` command (source lines 187-203): silently ignored
outside DMs; otherwise replies with the help text and touches no state. -/
def help (is_dm : Bool) (st : Store) : Store × List String :=
  if !is_dm then (st, []) else (st, [help_text])

/-- The store invariant: the test-mode set only holds subscribed ids. -/
def StoreInv (st : Store) : Prop := st.test_mode_users ⊆ st.subscribed_users

/-- Concrete two-target registry used to exercise the theorems. -/
def demo_registry : List Target :=
  [⟨"Group A", "https://example.org/a"⟩, ⟨"Group B", "https://example.org/b"⟩]

/-- Concrete fetch: the first demo target's body carries the marker, the second's does not. -/
def demo_fetch : String → FetchResult := fun u =>
  if u = "https://example.org/a" then FetchResult.ok "Sorry. This beta is full. Bye."
  else FetchResult.ok "Join now."

/-- Concrete delivery environment where every send succeeds. -/
def demo_env : DispatchEnv := ⟨fun _ => true, fun _ => SendOutcome.success⟩

/-- Concrete delivery environment where sending to user 1 hits `Forbidden`. -/
def demo_env2 : DispatchEnv :=
  ⟨fun _ => true, fun n => if n = 1 then SendOutcome.forbidden else SendOutcome.success⟩

/-! ### Helper lemmas about strings and substring search -/

theorem toList_append (a b : String) : (a ++ b).toList = a.toList ++ b.toList :=
  String.data_append a b

theorem matchesAt_append (m b : List Char) : matchesAt m (m ++ b) = true := by
  induction m with
  | nil => rfl
  | cons c cs ih => simp [matchesAt, ih]

theorem occursIn_nil_pat (l : List Char) : occursIn [] l = true := by
  cases l with
  | nil => rfl
  | cons b bs => simp [occursIn, matchesAt]

theorem occursIn_append (a m b : List Char) : occursIn m (a ++ (m ++ b)) = true := by
  induction a with
  | nil =>
    cases m with
    | nil => simpa using occursIn_nil_pat b
    | cons c cs =>
      have hma := matchesAt_append (c :: cs) b
      simp only [List.nil_append, List.cons_append] at hma ⊢
      simp [occursIn, hma]
  | cons x xs ih => simp [occursIn, ih]

theorem strOccurs_decomp (pat s a b : String)
    (h : s.toList = a.toList ++ pat.toList ++ b.toList) : strOccurs pat s = true := by
  unfold strOccurs
  rw [h, List.append_assoc]
  exact occursIn_append a.toList pat.toList b.toList

theorem slot_lit_decomp : ("**: :tada: THERE IS A SLOT! <" : String).toList =
    ("**: " : String).toList ++ SLOT_MARKER.toList ++ (" <" : String).toList := by decide

/-- The AVAILABLE status line contains the slot-available marker. -/
theorem slot_detail_has_marker (name url : String) :
    strOccurs SLOT_MARKER ("**" ++ name ++ "**: :tada: THERE IS A SLOT! <" ++ url ++ ">") = true := by
  apply strOccurs_decomp SLOT_MARKER _ ("**" ++ name ++ "**: ") (" <" ++ url ++ ">")
  simp only [toList_append, slot_lit_decomp, List.append_assoc]

/-- The AVAILABLE status line contains the target URL. -/
theorem slot_detail_has_url (name url : String) :
    strOccurs url ("**" ++ name ++ "**: :tada: THERE IS A SLOT! <" ++ url ++ ">") = true := by
  apply strOccurs_decomp url _ ("**" ++ name ++ "**: :tada: THERE IS A SLOT! <") (">")
  simp only [toList_append, List.append_assoc]

/-! ### Helper lemmas about the poll loop -/

theorem poll_targets_eq (marker : String) (fetch : String → FetchResult) (l : List Target) :
    poll_targets marker fetch l =
      ((run_checks marker fetch l).map (fun r => r.detail),
       ((run_checks marker fetch l).filter (fun r => r.state == CheckState.AVAILABLE)).map
         (fun r => r.detail)) := by
  induction l with
  | nil => rfl
  | cons t rest ih =>
    simp only [poll_targets, run_checks, ih, List.map_cons, List.filter_cons]
    split <;> simp_all

theorem poll_targets_fst_append (marker : String) (fetch : String → FetchResult)
    (a b : List Target) :
    (poll_targets marker fetch (a ++ b)).1 =
      (poll_targets marker fetch a).1 ++ (poll_targets marker fetch b).1 := by
  induction a with
  | nil => rfl
  | cons t rest ih => simp [poll_targets, ih]

theorem slot_found_eq_any (p : CheckResult → Bool) (l : List CheckResult) :
    slot_found ((l.filter p).map (fun r => r.detail)) = l.any p := by
  unfold slot_found
  rw [List.length_map]
  cases h : l.any p with
  | false =>
    have : l.filter p = [] := by
      rw [List.filter_eq_nil_iff]
      intro a ha hpa
      have := (List.any_eq_true).mpr ⟨a, ha, hpa⟩
      rw [h] at this
      exact Bool.false_ne_true this
    simp [this]
  | true =>
    obtain ⟨x, hx, hpx⟩ := (List.any_eq_true).mp h
    have hmem : x ∈ l.filter p := List.mem_filter.mpr ⟨hx, hpx⟩
    have : l.filter p ≠ [] := List.ne_nil_of_mem hmem
    simp [List.length_pos.mpr this]

/-! ### Claim theorems: the availability checker -/

/-- Claim C1: for a target whose fetch succeeds, if the configured marker
occurs in the body the result is FULL with the formatted "Full." line;
if the marker is absent the result is AVAILABLE with a detail line that
contains the slot-available marker and the target's URL. -/
theorem C1_checker_classification (marker : String) (fetch : String → FetchResult)
    (t : Target) (body : String) (h : fetch t.url = FetchResult.ok body) :
    (strOccurs marker body = true →
      check marker fetch t = ⟨t, CheckState.FULL, "**" ++ t.name ++ "**: Full."⟩) ∧
    (strOccurs marker body = false →
      (check marker fetch t).state = CheckState.AVAILABLE ∧
      strOccurs SLOT_MARKER (check marker fetch t).detail = true ∧
      strOccurs t.url (check marker fetch t).detail = true) := by
  constructor
  · intro hm
    simp [check, h, hm]
  · intro hm
    have hc : check marker fetch t =
        ⟨t, CheckState.AVAILABLE, "**" ++ t.name ++ "**: :tada: THERE IS A SLOT! <" ++ t.url ++ ">"⟩ := by
      simp [check, h, hm]
    rw [hc]
    exact ⟨rfl, slot_detail_has_marker t.name t.url, slot_detail_has_url t.name t.url⟩

/-- Witness for C1 at a concrete marker, fetch function, target and body. -/
theorem C1_witness :
    ((fun _ : String => FetchResult.ok "Sorry. This beta is full. Bye.")
        (Target.url ⟨"Group A", "https://example.org/a"⟩) =
      FetchResult.ok "Sorry. This beta is full. Bye.") ∧
    ((strOccurs FULL_TEXT "Sorry. This beta is full. Bye." = true →
      check FULL_TEXT (fun _ => FetchResult.ok "Sorry. This beta is full. Bye.")
          ⟨"Group A", "https://example.org/a"⟩ =
        ⟨⟨"Group A", "https://example.org/a"⟩, CheckState.FULL, "**" ++ "Group A" ++ "**: Full."⟩) ∧
    (strOccurs FULL_TEXT "Sorry. This beta is full. Bye." = false →
      (check FULL_TEXT (fun _ => FetchResult.ok "Sorry. This beta is full. Bye.")
          ⟨"Group A", "https://example.org/a"⟩).state = CheckState.AVAILABLE ∧
      strOccurs SLOT_MARKER (check FULL_TEXT (fun _ => FetchResult.ok "Sorry. This beta is full. Bye.")
          ⟨"Group A", "https://example.org/a"⟩).detail = true ∧
      strOccurs "https://example.org/a" (check FULL_TEXT (fun _ => FetchResult.ok "Sorry. This beta is full. Bye.")
          ⟨"Group A", "https://example.org/a"⟩).detail = true)) :=
  ⟨rfl, C1_checker_classification FULL_TEXT _ ⟨"Group A", "https://example.org/a"⟩
    "Sorry. This beta is full. Bye." rfl⟩

/-- Claim C2: a fetch failure yields an UNREACHABLE result with the error
line (the exception is caught, so nothing escapes the checker), and the
failing target neither stops the loop nor hides other targets: in any
registry around it, every target still contributes its own status line
in registry order. -/
theorem C2_unreachable_isolated (marker : String) (fetch : String → FetchResult)
    (t : Target) (cause : String) (h : fetch t.url = FetchResult.err cause) :
    check marker fetch t =
      ⟨t, CheckState.UNREACHABLE, "Could not check status for **" ++ t.name ++ "**. Error: " ++ cause⟩ ∧
    ∀ pre post : List Target,
      (poll_targets marker fetch (pre ++ t :: post)).1 =
        (poll_targets marker fetch pre).1 ++
          (check marker fetch t).detail :: (poll_targets marker fetch post).1 := by
  refine ⟨by simp [check, h], fun pre post => ?_⟩
  rw [poll_targets_fst_append]
  rfl

/-- Witness for C2 at a concrete always-failing fetch. -/
theorem C2_witness :
    ((fun _ : String => FetchResult.err "Connection timed out")
        (Target.url ⟨"Group C", "https://example.org/c"⟩) =
      FetchResult.err "Connection timed out") ∧
    (check FULL_TEXT (fun _ => FetchResult.err "Connection timed out")
        ⟨"Group C", "https://example.org/c"⟩ =
      ⟨⟨"Group C", "https://example.org/c"⟩, CheckState.UNREACHABLE,
        "Could not check status for **" ++ "Group C" ++ "**. Error: " ++ "Connection timed out"⟩ ∧
    ∀ pre post : List Target,
      (poll_targets FULL_TEXT (fun _ => FetchResult.err "Connection timed out") (pre ++ ⟨"Group C", "https://example.org/c"⟩ :: post)).1 =
        (poll_targets FULL_TEXT (fun _ => FetchResult.err "Connection timed out") pre).1 ++
          (check FULL_TEXT (fun _ => FetchResult.err "Connection timed out")
            ⟨"Group C", "https://example.org/c"⟩).detail ::
            (poll_targets FULL_TEXT (fun _ => FetchResult.err "Connection timed out") post).1) :=
  ⟨rfl, C2_unreachable_isolated FULL_TEXT _ ⟨"Group C", "https://example.org/c"⟩
    "Connection timed out" rfl⟩

/-! ### Claim theorems: commands and the store -/

/-- Claim C7: toggling test mode for an unsubscribed id replies with the
not-subscribed guidance and leaves the store untouched. -/
theorem C7_toggle_unsubscribed (st : Store) (u : Nat) (h : u ∉ st.subscribed_users) :
    test_mode true u st =
      (st, ["You need to subscribe first! Type `testflight>notify` to begin."]) := by
  simp [test_mode, h]

/-- Witness for C7 on the empty store. -/
theorem C7_witness :
    (4 ∉ Store.subscribed_users ⟨∅, ∅⟩) ∧
    test_mode true 4 ⟨∅, ∅⟩ =
      (⟨∅, ∅⟩, ["You need to subscribe first! Type `testflight>notify` to begin."]) :=
  ⟨by decide, C7_toggle_unsubscribed ⟨∅, ∅⟩ 4 (by decide)⟩

/-- Claim C8 (refuted by the code): the fetch issued per target carries no
timeout argument, so the request is not bounded: `requests.get` then waits
indefinitely and one unreachable target can stall the whole cycle. -/
theorem C8_no_timeout (url : String) : (poll_request url).timeout = Option.none := rfl

/-- Counterexample for C9: the `stop` and `test-mode` commands issued
outside a private channel return silently, sending no guidance message to
the issuer (the reply list is empty even for a subscribed issuer). -/
theorem C9_counterexample :
    (stop false 7 ⟨{7}, ∅⟩).2 = [] ∧ (test_mode false 7 ⟨{7}, {7}⟩).2 = [] := by
  constructor <;> rfl

/-- Claim C9 as amended: outside a private context, `notify` is rejected
with a guidance reply and no state change, while `test-mode`, `stop` and
`help` cause no state change but reply with nothing at all. -/
theorem C9_amended_group_context (u : Nat) (st : Store) :
    notify false u st = (st, ["This command only works in my DMs! Please message me directly."]) ∧
    test_mode false u st = (st, []) ∧
    stop false u st = (st, []) ∧
    help false st = (st, []) := by
  refine ⟨?_, ?_, ?_, ?_⟩ <;> rfl

/-- Claim C10: for a subscribed id, one toggle flips test-mode membership
without touching the subscribed set, and a second toggle restores the
store exactly. -/
theorem C10_toggle_involution (st : Store) (u : Nat) (h : u ∈ st.subscribed_users) :
    (test_mode true u (test_mode true u st).1).1 = st ∧
    (test_mode true u st).1.subscribed_users = st.subscribed_users ∧
    (u ∈ (test_mode true u st).1.test_mode_users ↔ u ∉ st.test_mode_users) := by
  by_cases hm : u ∈ st.test_mode_users
  · refine ⟨?_, by simp [test_mode, h, hm], by simp [test_mode, h, hm, Finset.mem_erase]⟩
    simp [test_mode, h, hm, Finset.insert_erase hm]
  · refine ⟨?_, by simp [test_mode, h, hm], by simp [test_mode, h, hm]⟩
    simp [test_mode, h, hm, Finset.erase_insert hm]

/-! ### Helper lemmas about the dispatch loop -/

theorem dispatch_pass_cons (env : DispatchEnv) (alls slots : List String) (st : Store)
    (u : Nat) (rest : List Nat) :
    dispatch_pass env alls slots st (u :: rest) =
      ((dispatch_pass env alls slots (dispatch_step env alls slots st u).1 rest).1,
       (dispatch_step env alls slots st u).2 ++
         (dispatch_pass env alls slots (dispatch_step env alls slots st u).1 rest).2) := rfl

/-- A dispatch step either leaves the store alone or, when the send hit
`Forbidden`, erases the processed id from both sets. -/
theorem dispatch_step_fst_cases (env : DispatchEnv) (alls slots : List String)
    (st : Store) (v : Nat) :
    (dispatch_step env alls slots st v).1 = st ∨
    (env.send v = SendOutcome.forbidden ∧
      (dispatch_step env alls slots st v).1 =
        ⟨st.subscribed_users.erase v, st.test_mode_users.erase v⟩) := by
  cases hf : env.fetch_user v <;> by_cases hm : v ∈ st.test_mode_users <;>
    cases hs : env.send v <;> by_cases hslot : slot_found slots <;>
      simp [dispatch_step, hf, hm, hs, hslot]

theorem dispatch_step_subscribed_subset (env : DispatchEnv) (alls slots : List String)
    (st : Store) (v : Nat) :
    (dispatch_step env alls slots st v).1.subscribed_users ⊆ st.subscribed_users := by
  rcases dispatch_step_fst_cases env alls slots st v with heq | ⟨_, heq⟩
  · rw [heq]
  · rw [heq]
    exact Finset.erase_subset v st.subscribed_users

theorem dispatch_step_test_mode_subset (env : DispatchEnv) (alls slots : List String)
    (st : Store) (v : Nat) :
    (dispatch_step env alls slots st v).1.test_mode_users ⊆ st.test_mode_users := by
  rcases dispatch_step_fst_cases env alls slots st v with heq | ⟨_, heq⟩
  · rw [heq]
  · rw [heq]
    exact Finset.erase_subset v st.test_mode_users

/-- Membership in the test-mode set survives the processing of `v`, either
because the send to `u` itself succeeds (so `u` is never erased) or because
`u` is not the id being processed. -/
theorem dispatch_step_mem_test_mode (env : DispatchEnv) (alls slots : List String)
    (st : Store) (u v : Nat) (h : u ∈ st.test_mode_users)
    (hcond : env.send u = SendOutcome.success ∨ u ≠ v) :
    u ∈ (dispatch_step env alls slots st v).1.test_mode_users := by
  rcases dispatch_step_fst_cases env alls slots st v with heq | ⟨hforb, heq⟩
  · rw [heq]; exact h
  · rw [heq]
    rcases hcond with hs | hne
    · refine Finset.mem_erase.mpr ⟨?_, h⟩
      intro heq2
      have hcontr : SendOutcome.success = SendOutcome.forbidden := by
        rw [← hs, heq2, hforb]
      exact SendOutcome.noConfusion hcontr
    · exact Finset.mem_erase.mpr ⟨hne, h⟩

/-- Every delivery recorded by one dispatch step names the processed id. -/
theorem dispatch_step_snd_keys (env : DispatchEnv) (alls slots : List String)
    (st : Store) (v : Nat) :
    ∀ e ∈ (dispatch_step env alls slots st v).2, e.1 = v := by
  cases hf : env.fetch_user v <;> by_cases hm : v ∈ st.test_mode_users <;>
    cases hs : env.send v <;> by_cases hslot : slot_found slots <;>
      simp [dispatch_step, hf, hm, hs, hslot]

theorem dispatch_pass_subscribed_subset (env : DispatchEnv) (alls slots : List String) :
    ∀ (L : List Nat) (st : Store),
      (dispatch_pass env alls slots st L).1.subscribed_users ⊆ st.subscribed_users := by
  intro L
  induction L with
  | nil => intro st; exact Finset.Subset.refl _
  | cons v rest ih =>
    intro st
    rw [dispatch_pass_cons]
    exact (ih _).trans (dispatch_step_subscribed_subset env alls slots st v)

theorem dispatch_pass_test_mode_subset (env : DispatchEnv) (alls slots : List String) :
    ∀ (L : List Nat) (st : Store),
      (dispatch_pass env alls slots st L).1.test_mode_users ⊆ st.test_mode_users := by
  intro L
  induction L with
  | nil => intro st; exact Finset.Subset.refl _
  | cons v rest ih =>
    intro st
    rw [dispatch_pass_cons]
    exact (ih _).trans (dispatch_step_test_mode_subset env alls slots st v)

/-- A user absent from the snapshot receives nothing in the pass. -/
theorem dispatch_pass_filter_not_mem (env : DispatchEnv) (alls slots : List String) (u : Nat) :
    ∀ L : List Nat, u ∉ L → ∀ st : Store,
      ((dispatch_pass env alls slots st L).2.filter (fun e => e.1 == u)) = [] := by
  intro L
  induction L with
  | nil => intro _ st; rfl
  | cons v rest ih =>
    intro hu st
    rw [dispatch_pass_cons, List.filter_append]
    have hvu : v ≠ u := fun h2 => hu (List.mem_cons.mpr (Or.inl h2.symm))
    have h1 : ((dispatch_step env alls slots st v).2.filter (fun e => e.1 == u)) = [] := by
      rw [List.filter_eq_nil_iff]
      intro e he
      have hev := dispatch_step_snd_keys env alls slots st v e he
      simp [hev]
      exact hvu
    rw [h1, List.nil_append]
    exact ih (fun h2 => hu (List.mem_cons_of_mem v h2)) _

/-- A test-mode user whose lookup and send succeed receives exactly the full
digest, once, in any duplicate-free snapshot containing it. -/
theorem dispatch_pass_verbose_filter (env : DispatchEnv) (alls slots : List String) (u : Nat)
    (hf : env.fetch_user u = true) (hs : env.send u = SendOutcome.success) :
    ∀ L : List Nat, L.Nodup → u ∈ L → ∀ st : Store, u ∈ st.test_mode_users →
      ((dispatch_pass env alls slots st L).2.filter (fun e => e.1 == u)) =
        [(u, full_update_message alls)] := by
  intro L
  induction L with
  | nil => intro _ hu; cases hu
  | cons v rest ih =>
    intro hnd hu st hm
    rw [dispatch_pass_cons, List.filter_append]
    by_cases hvu : u = v
    · subst hvu
      have hstep : dispatch_step env alls slots st u = (st, [(u, full_update_message alls)]) := by
        simp [dispatch_step, hf, hm, hs]
      rw [hstep]
      have hur : u ∉ rest := (List.nodup_cons.mp hnd).1
      rw [dispatch_pass_filter_not_mem env alls slots u rest hur]
      simp
    · have hur : u ∈ rest := (List.mem_cons.mp hu).resolve_left hvu
      have h1 : ((dispatch_step env alls slots st v).2.filter (fun e => e.1 == u)) = [] := by
        rw [List.filter_eq_nil_iff]
        intro e he
        have hev := dispatch_step_snd_keys env alls slots st v e he
        simp [hev]
        exact fun h2 => hvu h2.symm
      rw [h1, List.nil_append]
      exact ih (List.nodup_cons.mp hnd).2 hur _
        (dispatch_step_mem_test_mode env alls slots st u v hm (Or.inl hs))

/-- A normal user whose lookup and send succeed receives exactly the slot
notification when a slot was found, and nothing otherwise. -/
theorem dispatch_pass_normal_filter (env : DispatchEnv) (alls slots : List String) (u : Nat)
    (hf : env.fetch_user u = true) (hs : env.send u = SendOutcome.success) :
    ∀ L : List Nat, L.Nodup → u ∈ L → ∀ st : Store, u ∉ st.test_mode_users →
      ((dispatch_pass env alls slots st L).2.filter (fun e => e.1 == u)) =
        if slot_found slots then [(u, slot_notification slots)] else [] := by
  intro L
  induction L with
  | nil => intro _ hu; cases hu
  | cons v rest ih =>
    intro hnd hu st hm
    rw [dispatch_pass_cons, List.filter_append]
    by_cases hvu : u = v
    · subst hvu
      have hstep : dispatch_step env alls slots st u =
          (st, if slot_found slots then [(u, slot_notification slots)] else []) := by
        by_cases hslot : slot_found slots <;> simp [dispatch_step, hf, hm, hs, hslot]
      rw [hstep]
      have hur : u ∉ rest := (List.nodup_cons.mp hnd).1
      rw [dispatch_pass_filter_not_mem env alls slots u rest hur]
      by_cases hslot : slot_found slots <;> simp [hslot]
    · have hur : u ∈ rest := (List.mem_cons.mp hu).resolve_left hvu
      have h1 : ((dispatch_step env alls slots st v).2.filter (fun e => e.1 == u)) = [] := by
        rw [List.filter_eq_nil_iff]
        intro e he
        have hev := dispatch_step_snd_keys env alls slots st v e he
        simp [hev]
        exact fun h2 => hvu h2.symm
      rw [h1, List.nil_append]
      have hm2 : u ∉ (dispatch_step env alls slots st v).1.test_mode_users :=
        fun hmem => hm (dispatch_step_test_mode_subset env alls slots st v hmem)
      exact ih (List.nodup_cons.mp hnd).2 hur _ hm2

/-- A test-mode user whose lookup and send succeed gets the full digest
into the delivery log of any pass whose snapshot contains it. -/
theorem dispatch_pass_mem_log_verbose (env : DispatchEnv) (alls slots : List String) (u : Nat)
    (hf : env.fetch_user u = true) (hs : env.send u = SendOutcome.success) :
    ∀ L : List Nat, u ∈ L → ∀ st : Store, u ∈ st.test_mode_users →
      (u, full_update_message alls) ∈ (dispatch_pass env alls slots st L).2 := by
  intro L
  induction L with
  | nil => intro hu; cases hu
  | cons v rest ih =>
    intro hu st hm
    rw [dispatch_pass_cons]
    by_cases hvu : u = v
    · subst hvu
      have hstep : dispatch_step env alls slots st u = (st, [(u, full_update_message alls)]) := by
        simp [dispatch_step, hf, hm, hs]
      rw [hstep]
      exact List.mem_append_left _ (List.mem_singleton.mpr rfl)
    · have hur : u ∈ rest := (List.mem_cons.mp hu).resolve_left hvu
      exact List.mem_append_right _
        (ih hur _ (dispatch_step_mem_test_mode env alls slots st u v hm (Or.inl hs)))

/-- A normal user whose lookup and send succeed gets the slot notification
into the delivery log whenever a slot was found. -/
theorem dispatch_pass_mem_log_normal (env : DispatchEnv) (alls slots : List String) (u : Nat)
    (hf : env.fetch_user u = true) (hs : env.send u = SendOutcome.success)
    (hslot : slot_found slots = true) :
    ∀ L : List Nat, u ∈ L → ∀ st : Store, u ∉ st.test_mode_users →
      (u, slot_notification slots) ∈ (dispatch_pass env alls slots st L).2 := by
  intro L
  induction L with
  | nil => intro hu; cases hu
  | cons v rest ih =>
    intro hu st hm
    rw [dispatch_pass_cons]
    by_cases hvu : u = v
    · subst hvu
      have hstep : dispatch_step env alls slots st u = (st, [(u, slot_notification slots)]) := by
        simp [dispatch_step, hf, hm, hs, hslot]
      rw [hstep]
      exact List.mem_append_left _ (List.mem_singleton.mpr rfl)
    · have hur : u ∈ rest := (List.mem_cons.mp hu).resolve_left hvu
      have hm2 : u ∉ (dispatch_step env alls slots st v).1.test_mode_users :=
        fun hmem => hm (dispatch_step_test_mode_subset env alls slots st v hmem)
      exact List.mem_append_right _ (ih hur _ hm2)

/-- A `Forbidden` send to an eligible user (in test mode, so the digest was
sent; or not, but a slot was found, so the slot message was sent) erases
that user from both sets. -/
theorem dispatch_step_forbidden_fst (env : DispatchEnv) (alls slots : List String)
    (st : Store) (x : Nat)
    (hf : env.fetch_user x = true) (hs : env.send x = SendOutcome.forbidden)
    (helig : x ∈ st.test_mode_users ∨ slot_found slots = true) :
    (dispatch_step env alls slots st x).1 =
      ⟨st.subscribed_users.erase x, st.test_mode_users.erase x⟩ := by
  by_cases hm : x ∈ st.test_mode_users
  · simp [dispatch_step, hf, hm, hs]
  · rcases helig with hm2 | hslot
    · exact absurd hm2 hm
    · simp [dispatch_step, hf, hm, hs, hslot]

/-- A user hit by `Forbidden` while a message was being sent to it — whatever
its tier: in test mode, or normal with a slot found — ends the pass outside
both sets. -/
theorem dispatch_pass_forbidden_erased (env : DispatchEnv) (alls slots : List String) (x : Nat)
    (hf : env.fetch_user x = true) (hs : env.send x = SendOutcome.forbidden) :
    ∀ L : List Nat, x ∈ L → ∀ st : Store,
      x ∈ st.test_mode_users ∨ slot_found slots = true →
      x ∉ (dispatch_pass env alls slots st L).1.subscribed_users ∧
      x ∉ (dispatch_pass env alls slots st L).1.test_mode_users := by
  intro L
  induction L with
  | nil => intro hx; cases hx
  | cons v rest ih =>
    intro hx st helig
    by_cases hxv : x = v
    · subst hxv
      rw [dispatch_pass_cons]
      rw [dispatch_step_forbidden_fst env alls slots st x hf hs helig]
      constructor
      · intro hmem
        exact (Finset.mem_erase.mp
          (dispatch_pass_subscribed_subset env alls slots rest _ hmem)).1 rfl
      · intro hmem
        exact (Finset.mem_erase.mp
          (dispatch_pass_test_mode_subset env alls slots rest _ hmem)).1 rfl
    · have hxr : x ∈ rest := (List.mem_cons.mp hx).resolve_left hxv
      rw [dispatch_pass_cons]
      refine ih hxr _ ?_
      rcases helig with hm | hslot
      · exact Or.inl (dispatch_step_mem_test_mode env alls slots st x v hm (Or.inr hxv))
      · exact Or.inr hslot

/-- The erased id of the removal policy keeps the store invariant. -/
theorem storeInv_erase (st : Store) (u : Nat) (h : StoreInv st) :
    StoreInv (⟨st.subscribed_users.erase u, st.test_mode_users.erase u⟩ : Store) := by
  intro a ha
  rcases Finset.mem_erase.mp ha with ⟨hne, hmem⟩
  exact Finset.mem_erase.mpr ⟨hne, h hmem⟩

/-- The whole dispatch pass keeps the store invariant. -/
theorem dispatch_pass_inv (env : DispatchEnv) (alls slots : List String) :
    ∀ L : List Nat, ∀ st : Store, StoreInv st →
      StoreInv (dispatch_pass env alls slots st L).1 := by
  intro L
  induction L with
  | nil => intro st h; exact h
  | cons v rest ih =>
    intro st h
    rw [dispatch_pass_cons]
    apply ih
    rcases dispatch_step_fst_cases env alls slots st v with heq | ⟨_, heq⟩
    · rw [heq]; exact h
    · rw [heq]; exact storeInv_erase st v h

/-! ### Claim theorems: the dispatcher -/

/-- Claim C3: in an executed cycle, a subscribed NORMAL user whose lookup
and delivery succeed receives nothing when no target is AVAILABLE, and
exactly one message otherwise, whose body is the slot header followed by
exactly the AVAILABLE detail lines (so never a FULL or UNREACHABLE line). -/
theorem C3_normal_tier (marker : String) (fetch : String → FetchResult) (registry : List Target)
    (env : DispatchEnv) (snapshot : List Nat) (st : Store) (u : Nat)
    (hsub : u ∈ st.subscribed_users)
    (hnorm : u ∉ st.test_mode_users)
    (hsnap : ∀ v, v ∈ snapshot ↔ v ∈ st.subscribed_users)
    (hnd : snapshot.Nodup)
    (hfu : env.fetch_user u = true)
    (hsend : env.send u = SendOutcome.success) :
    ((check_cycle marker fetch registry env snapshot st).2.filter (fun e => e.1 == u)) =
      if (run_checks marker fetch registry).any (fun r => r.state == CheckState.AVAILABLE) then
        [(u, slot_notification
          (((run_checks marker fetch registry).filter
            (fun r => r.state == CheckState.AVAILABLE)).map (fun r => r.detail)))]
      else [] := by
  have hne : st.subscribed_users ≠ ∅ := Finset.ne_empty_of_mem hsub
  unfold check_cycle
  rw [if_neg hne, poll_targets_eq,
    ← slot_found_eq_any (fun r => r.state == CheckState.AVAILABLE) (run_checks marker fetch registry)]
  exact dispatch_pass_normal_filter env _ _ u hfu hsend snapshot hnd ((hsnap u).mpr hsub) st hnorm

/-- Witness for C3 on the demo registry with one normal subscriber. -/
theorem C3_witness :
    (5 ∈ Store.subscribed_users ⟨{5}, ∅⟩) ∧
    (5 ∉ Store.test_mode_users ⟨{5}, ∅⟩) ∧
    (∀ v, v ∈ [5] ↔ v ∈ Store.subscribed_users ⟨{5}, ∅⟩) ∧
    List.Nodup [5] ∧
    (demo_env.fetch_user 5 = true) ∧
    (demo_env.send 5 = SendOutcome.success) ∧
    ((check_cycle FULL_TEXT demo_fetch demo_registry demo_env [5] ⟨{5}, ∅⟩).2.filter
        (fun e => e.1 == 5)) =
      (if (run_checks FULL_TEXT demo_fetch demo_registry).any
            (fun r => r.state == CheckState.AVAILABLE) then
        [(5, slot_notification
          (((run_checks FULL_TEXT demo_fetch demo_registry).filter
            (fun r => r.state == CheckState.AVAILABLE)).map (fun r => r.detail)))]
      else []) :=
  ⟨by decide, by decide, by simp, by decide, rfl, rfl,
    C3_normal_tier FULL_TEXT demo_fetch demo_registry demo_env [5] ⟨{5}, ∅⟩ 5
      (by decide) (by decide) (by simp) (by decide) rfl rfl⟩

/-- Claim C4: in an executed cycle, a subscribed VERBOSE (test-mode) user
whose lookup and delivery succeed receives exactly one message: every
result's detail line joined under the fixed status header, regardless of
availability. -/
theorem C4_verbose_digest (marker : String) (fetch : String → FetchResult) (registry : List Target)
    (env : DispatchEnv) (snapshot : List Nat) (st : Store) (u : Nat)
    (hsub : u ∈ st.subscribed_users)
    (hverb : u ∈ st.test_mode_users)
    (hsnap : ∀ v, v ∈ snapshot ↔ v ∈ st.subscribed_users)
    (hnd : snapshot.Nodup)
    (hfu : env.fetch_user u = true)
    (hsend : env.send u = SendOutcome.success) :
    ((check_cycle marker fetch registry env snapshot st).2.filter (fun e => e.1 == u)) =
      [(u, full_update_message ((run_checks marker fetch registry).map (fun r => r.detail)))] := by
  have hne : st.subscribed_users ≠ ∅ := Finset.ne_empty_of_mem hsub
  unfold check_cycle
  rw [if_neg hne, poll_targets_eq]
  exact dispatch_pass_verbose_filter env _ _ u hfu hsend snapshot hnd ((hsnap u).mpr hsub) st hverb

/-- Witness for C4 on the demo registry with one test-mode subscriber. -/
theorem C4_witness :
    (5 ∈ Store.subscribed_users ⟨{5}, {5}⟩) ∧
    (5 ∈ Store.test_mode_users ⟨{5}, {5}⟩) ∧
    (∀ v, v ∈ [5] ↔ v ∈ Store.subscribed_users ⟨{5}, {5}⟩) ∧
    List.Nodup [5] ∧
    (demo_env.fetch_user 5 = true) ∧
    (demo_env.send 5 = SendOutcome.success) ∧
    ((check_cycle FULL_TEXT demo_fetch demo_registry demo_env [5] ⟨{5}, {5}⟩).2.filter
        (fun e => e.1 == 5)) =
      [(5, full_update_message
        ((run_checks FULL_TEXT demo_fetch demo_registry).map (fun r => r.detail)))] :=
  ⟨by decide, by decide, by simp, by decide, rfl, rfl,
    C4_verbose_digest FULL_TEXT demo_fetch demo_registry demo_env [5] ⟨{5}, {5}⟩ 5
      (by decide) (by decide) (by simp) (by decide) rfl rfl⟩

/-- Claim C5: when the send to a subscriber `x` of either tier — `x` in
test mode, or a normal `x` being sent the slot message — hits the
permanent `Forbidden` error, `x` ends the pass removed from both sets
(the handler catches the error, so nothing propagates), while every other
subscriber in the same snapshot still gets its delivery attempted: each
eligible one's message is in the pass's delivery log. -/
theorem C5_forbidden_removal (env : DispatchEnv) (alls slots : List String)
    (st : Store) (L : List Nat) (x : Nat)
    (hx : x ∈ L) (hfu : env.fetch_user x = true)
    (hsend : env.send x = SendOutcome.forbidden)
    (helig : x ∈ st.test_mode_users ∨ slot_found slots = true) :
    x ∉ (dispatch_pass env alls slots st L).1.subscribed_users ∧
    x ∉ (dispatch_pass env alls slots st L).1.test_mode_users ∧
    (∀ u, u ∈ L → env.fetch_user u = true → env.send u = SendOutcome.success →
      u ∈ st.test_mode_users →
      (u, full_update_message alls) ∈ (dispatch_pass env alls slots st L).2) ∧
    (∀ u, u ∈ L → env.fetch_user u = true → env.send u = SendOutcome.success →
      u ∉ st.test_mode_users → slot_found slots = true →
      (u, slot_notification slots) ∈ (dispatch_pass env alls slots st L).2) := by
  obtain ⟨h1, h2⟩ := dispatch_pass_forbidden_erased env alls slots x hfu hsend L hx st helig
  refine ⟨h1, h2, ?_, ?_⟩
  · intro u hu huf hus hum
    exact dispatch_pass_mem_log_verbose env alls slots u huf hus L hu st hum
  · intro u hu huf hus hum hslot
    exact dispatch_pass_mem_log_normal env alls slots u huf hus hslot L hu st hum

/-- Witness for C5: normal-tier user 1 is sent the slot message and is
forbidden, so it is removed; test-mode user 2 still gets the digest. -/
theorem C5_witness :
    (1 ∈ [1, 2]) ∧
    (demo_env2.fetch_user 1 = true) ∧
    (demo_env2.send 1 = SendOutcome.forbidden) ∧
    (1 ∈ Store.test_mode_users ⟨{1, 2}, {2}⟩ ∨ slot_found ["lineA"] = true) ∧
    (1 ∉ (dispatch_pass demo_env2 ["lineA"] ["lineA"] ⟨{1, 2}, {2}⟩ [1, 2]).1.subscribed_users ∧
    1 ∉ (dispatch_pass demo_env2 ["lineA"] ["lineA"] ⟨{1, 2}, {2}⟩ [1, 2]).1.test_mode_users ∧
    (∀ u, u ∈ [1, 2] → demo_env2.fetch_user u = true → demo_env2.send u = SendOutcome.success →
      u ∈ Store.test_mode_users ⟨{1, 2}, {2}⟩ →
      (u, full_update_message ["lineA"]) ∈
        (dispatch_pass demo_env2 ["lineA"] ["lineA"] ⟨{1, 2}, {2}⟩ [1, 2]).2) ∧
    (∀ u, u ∈ [1, 2] → demo_env2.fetch_user u = true → demo_env2.send u = SendOutcome.success →
      u ∉ Store.test_mode_users ⟨{1, 2}, {2}⟩ → slot_found ["lineA"] = true →
      (u, slot_notification ["lineA"]) ∈
        (dispatch_pass demo_env2 ["lineA"] ["lineA"] ⟨{1, 2}, {2}⟩ [1, 2]).2)) :=
  ⟨by decide, rfl, rfl, Or.inr rfl,
    C5_forbidden_removal demo_env2 ["lineA"] ["lineA"] ⟨{1, 2}, {2}⟩ [1, 2] 1
      (by decide) rfl rfl (Or.inr rfl)⟩

/-- Claim C6: every state-changing operation — subscribe, unsubscribe,
toggle test mode (in either context), and a whole dispatch pass with its
removal-on-Forbidden policy — preserves the invariant that the test-mode
set is a subset of the subscribed set. -/
theorem C6_store_invariant (st : Store) (is_dm : Bool) (u : Nat) (env : DispatchEnv)
    (alls slots : List String) (L : List Nat) (h : StoreInv st) :
    StoreInv (notify is_dm u st).1 ∧ StoreInv (test_mode is_dm u st).1 ∧
    StoreInv (stop is_dm u st).1 ∧ StoreInv (dispatch_pass env alls slots st L).1 := by
  refine ⟨?_, ?_, ?_, dispatch_pass_inv env alls slots L st h⟩
  · cases is_dm with
    | false => simpa [notify] using h
    | true =>
      by_cases hmem : u ∈ st.subscribed_users
      · simpa [notify, hmem] using h
      · simp only [notify, hmem, Bool.not_true, if_neg, if_false]
        have : st.test_mode_users ⊆ insert u st.subscribed_users :=
          h.trans (Finset.subset_insert u st.subscribed_users)
        simpa [hmem] using this
  · cases is_dm with
    | false => simpa [test_mode] using h
    | true =>
      by_cases hmem : u ∈ st.subscribed_users
      · by_cases htm : u ∈ st.test_mode_users
        · have : st.test_mode_users.erase u ⊆ st.subscribed_users :=
            (Finset.erase_subset u st.test_mode_users).trans h
          simpa [test_mode, hmem, htm] using this
        · have : insert u st.test_mode_users ⊆ st.subscribed_users :=
            Finset.insert_subset hmem h
          simpa [test_mode, hmem, htm] using this
      · simpa [test_mode, hmem] using h
  · cases is_dm with
    | false => simpa [stop] using h
    | true =>
      by_cases hmem : u ∈ st.subscribed_users
      · have := storeInv_erase st u h
        simpa [stop, hmem] using this
      · simpa [stop, hmem] using h

/-- Witness for C6 on a concrete store satisfying the invariant. -/
theorem C6_witness :
    StoreInv ⟨{1, 2}, {2}⟩ ∧
    (StoreInv (notify true 3 ⟨{1, 2}, {2}⟩).1 ∧ StoreInv (test_mode true 3 ⟨{1, 2}, {2}⟩).1 ∧
    StoreInv (stop true 3 ⟨{1, 2}, {2}⟩).1 ∧
    StoreInv (dispatch_pass demo_env2 ["x"] [] ⟨{1, 2}, {2}⟩ [2]).1) :=
  ⟨by show ({2} : Finset Nat) ⊆ {1, 2}; decide,
    C6_store_invariant ⟨{1, 2}, {2}⟩ true 3 demo_env2 ["x"] [] [2]
      (by show ({2} : Finset Nat) ⊆ {1, 2}; decide)⟩

/-- Witness for C10 on a concrete store with one subscribed user. -/
theorem C10_witness :
    (9 ∈ Store.subscribed_users ⟨{9}, ∅⟩) ∧
    ((test_mode true 9 (test_mode true 9 ⟨{9}, ∅⟩).1).1 = ⟨{9}, ∅⟩ ∧
    (test_mode true 9 ⟨{9}, ∅⟩).1.subscribed_users = Store.subscribed_users ⟨{9}, ∅⟩ ∧
    (9 ∈ (test_mode true 9 ⟨{9}, ∅⟩).1.test_mode_users ↔ 9 ∉ Store.test_mode_users ⟨{9}, ∅⟩)) :=
  ⟨by decide, C10_toggle_involution ⟨{9}, ∅⟩ 9 (by decide)⟩

end TFC
